import Mathlib

/-!
Verification development for the discord-clone repository: a shallow
embedding in Lean 4 of the pub/sub dispatcher, the websocket handshake
negotiation, the member-removal sequencing and the Color type, with
theorems settling the specification claims about them.
-/

/-! ## Color (discord/types.py)

The source decomposes an RGB integer into byte components in the
constructor and re-encodes them in the `value` property via hex
formatting: `int("%02x%02x%02x" % (red, green, blue), 16)`.  Since each
component is masked with `& 255`, each "%02x" field is exactly two hex
digits, so the parsed integer equals `red * 2^16 + green * 2^8 + blue`.
-/

structure Color where
  red : Nat
  green : Nat
  blue : Nat
deriving DecidableEq

/-- Embeds `Color.__init__(self, val)`: `blue = val & 255`,
`green = (val >> 8) & 255`, `red = (val >> 16) & 255`. -/
def Color.ofVal (val : Nat) : Color :=
  { blue := val &&& 255
    green := (val >>> 8) &&& 255
    red := (val >>> 16) &&& 255 }

/-- Embeds the `Color.value` property (hex re-encoding of the three
byte components, see the module comment for the arithmetic identity). -/
def Color.value (c : Color) : Nat :=
  c.red * 65536 + c.green * 256 + c.blue

/-! ## DispatcherWithState (discord/pubsub/dispatcher.py)

The backend state is a `defaultdict(set)` mapping a key to the set of
subscriber identifiers.  We model the dictionary as
`Nat → Option (Finset Nat)`: `none` means the key is absent from the
dictionary, `some s` means the key is present with subscriber set `s`.
A `defaultdict` read of an absent key yields the empty set (and inserts
it); mutation through `self.state[key]` therefore always leaves the key
present afterwards, which the models of `sub` and `unsub` reflect.
-/

def DWState : Type := Nat → Option (Finset Nat)

/-- The dictionary with no keys: the state of a freshly constructed
`DispatcherWithState`. -/
def DWState.empty : DWState := fun _ => none

/-- Value-level read of `self.state[key]` under `defaultdict(set)`
semantics: an absent key reads as the empty set. -/
def DWState.get (d : DWState) (k : Nat) : Finset Nat :=
  (d k).getD ∅

/-- Embeds `sub(self, key, identifier)`: `self.state[key].add(identifier)`.
The `defaultdict` getitem materialises the key, then `set.add` inserts. -/
def DWState.sub (d : DWState) (k i : Nat) : DWState :=
  fun x => if x = k then some (insert i (d.get k)) else d x

/-- Embeds `unsub(self, key, identifier)`:
`self.state[key].discard(identifier)`.  `set.discard` never raises when
the element is absent; the getitem materialises the key. -/
def DWState.unsub (d : DWState) (k i : Nat) : DWState :=
  fun x => if x = k then some ((d.get k).erase i) else d x

/-- Embeds `reset(self, key)`: `self.state[key] = set()` — the key stays
present, with empty membership. -/
def DWState.reset (d : DWState) (k : Nat) : DWState :=
  fun x => if x = k then some ∅ else d x

/-- Embeds `remove(self, key)`: `self.state.pop(key)` wrapped in
`try/except KeyError` — the key is discarded, absence is not an error. -/
def DWState.remove (d : DWState) (k : Nat) : DWState :=
  fun x => if x = k then none else d x

/-- The membership read `members(key)` used by backends: under
`defaultdict(set)` a read of any key (present or not) yields its
subscriber set, empty for an absent key, never an error. -/
def DWState.members (d : DWState) (k : Nat) : Finset Nat :=
  d.get k

theorem DWState.get_sub_self (d : DWState) (k i : Nat) :
    (d.sub k i).get k = insert i (d.get k) := by
  simp [DWState.sub, DWState.get]

theorem DWState.get_unsub_self (d : DWState) (k i : Nat) :
    (d.unsub k i).get k = (d.get k).erase i := by
  simp [DWState.unsub, DWState.get]

/-! ## Dispatcher._dispatch_states (discord/pubsub/dispatcher.py)

The base class helper iterates over a list of gateway session states,
awaits `state.ws.dispatch(event, data)` for each inside a bare
`try/except` that logs and continues, and appends `state.session_id` to
the result list only when the push succeeded.  The fallible push over
the websocket is modelled as an `Except`-valued function of the state:
`GwState.push_ok` records whether the push for this event succeeds.
-/

structure GwState where
  session_id : Nat
  push_ok : Bool
deriving DecidableEq

/-- Models `await state.ws.dispatch(event, data)`: the external
serialization-and-transport push, which either returns or raises. -/
def GwState.push (s : GwState) : Except String Unit :=
  if s.push_ok then Except.ok () else Except.error "error while dispatching"

/-- Embeds the loop of `_dispatch_states`.  The first component is the
instrumented trace of the states a push was attempted on, in loop
order; the second component is `res`, the value the source returns.
An exception from the push lands in the `error` branch: it is consumed
(logged in the source) and the loop continues with the remaining
states. -/
def dispatch_states : List GwState → List Nat × List Nat
  | [] => ([], [])
  | s :: rest =>
    let tail := dispatch_states rest
    match s.push with
    | Except.ok _ => (s.session_id :: tail.1, s.session_id :: tail.2)
    | Except.error _ => (s.session_id :: tail.1, tail.2)

/-! ## websocket_handler (discord/gateway/gateway.py)

The handler parses the connection URL query string with
`urllib.parse.parse_qs` (default options: pairs with an empty value are
dropped) and then either closes the socket with code 1000 and a reason,
or constructs and runs a `GatewayWebsocket` with the negotiated
parameters.  We model the query string as the list of raw key/value
pairs and `parse_qs` lookup of one key as the list of its non-empty
values.
-/

/-- Models `urllib.parse.parse_qs(query)[key]` with the default
`keep_blank_values=False`: the values bound to `key`, empty ones
dropped. -/
def parse_qs (pairs : List (String × String)) (key : String) : List String :=
  (pairs.filter fun p => p.1 == key && p.2 != "").map Prod.snd

/-- What the handler does with the connection: close it with a code and
a reason before any session state exists, or construct and run a
`GatewayWebsocket` with the negotiated version, encoding and
compression. -/
inductive HandlerResult : Type
  | close (code : Nat) (reason : String)
  | run (v : String) (encoding : String) (compress : Option String)
deriving DecidableEq

/-- The effective protocol version: first `v` value, defaulting to "6"
when absent (the `try/except (KeyError, IndexError)` in the source). -/
def gw_version (pairs : List (String × String)) : String :=
  ((parse_qs pairs "v").head?).getD "6"

/-- The effective encoding: first `encoding` value, defaulting to
"json" when absent. -/
def gw_encoding (pairs : List (String × String)) : String :=
  ((parse_qs pairs "encoding").head?).getD "json"

/-- The effective compression: first `compress` value, `None` when
absent. -/
def gw_compress (pairs : List (String × String)) : Option String :=
  (parse_qs pairs "compress").head?

/-- Embeds `websocket_handler`: version checked against `("6", "7")`,
encoding against `("json", "etf")`, then compression — a truthy value
outside `("zlib-stream",)` — each failure closing with code 1000 and
the source reason string, otherwise running a `GatewayWebsocket`. -/
def websocket_handler (pairs : List (String × String)) : HandlerResult :=
  if gw_version pairs ∉ (["6", "7"] : List String) then
    HandlerResult.close 1000 "Invalid gateway version"
  else if gw_encoding pairs ∉ (["json", "etf"] : List String) then
    HandlerResult.close 1000 "Invalid gateway encoding"
  else
    match gw_compress pairs with
    | some c =>
      if c ≠ "" ∧ c ∉ (["zlib-stream"] : List String) then
        HandlerResult.close 1000 "Invalid gateway compress"
      else
        HandlerResult.run (gw_version pairs) (gw_encoding pairs) (some c)
    | none => HandlerResult.run (gw_version pairs) (gw_encoding pairs) none

/-- The rejection condition as the specification words it: requested
version not one of the two supported versions, or requested encoding
not one of the two supported encodings (the binary one is "etf" on the
wire), or a compression value other than the single supported streaming
mode requested.  Stated over the effective (defaulted) request values;
used to compare the handler against the spec sentence. -/
def bad_compress : Option String → Prop
  | none => False
  | some c => c ∉ (["zlib-stream"] : List String)

instance : ∀ o : Option String, Decidable (bad_compress o)
  | none => isFalse (fun h => h)
  | some _ => instDecidableNot

def spec_rejects (pairs : List (String × String)) : Prop :=
  gw_version pairs ∉ (["6", "7"] : List String) ∨
  gw_encoding pairs ∉ (["json", "etf"] : List String) ∨
  bad_compress (gw_compress pairs)

instance (pairs : List (String × String)) : Decidable (spec_rejects pairs) :=
  instDecidableOr

/-! ## remove_member (discord/blueprints/guild/mod.py)

The leave, kick and ban paths all funnel into `remove_member(guild_id,
member_id)`, whose sequence is: delete the member row (persistence,
outside the core), dispatch `GUILD_DELETE` directly to the removed
member via `dispatcher.dispatch_user_guild`, then
`dispatcher.unsub("guild", guild_id, member_id)`, then a lazy-guild
dispatch, then `dispatcher.dispatch_guild(guild_id,
"GUILD_MEMBER_REMOVE", ...)`.  Per spec section 4.2 the guild backend
dispatch pushes to a snapshot of the subscriber set taken when the
dispatch call is made (the backend itself is not among the available
sources, so the snapshot semantics come from the spec); the sequencing
below is from the source.  The guild subscription table is modelled as
`Nat → Finset Nat` (guild id → subscriber user ids).
-/

structure RMResult where
  /-- The user the direct `GUILD_DELETE` dispatch targets (first
  dispatch in the sequence, before the unsubscribe). -/
  guild_delete_to : Nat
  /-- The subscriber snapshot the `GUILD_MEMBER_REMOVE` guild dispatch
  delivers to (last dispatch in the sequence). -/
  member_remove_to : Finset Nat
  /-- The guild subscription table after the call. -/
  subs_after : Nat → Finset Nat

/-- Embeds the dispatch-visible effects of `remove_member`, in source
order: `GUILD_DELETE` to the removed member, then the unsubscribe from
the guild key, then `GUILD_MEMBER_REMOVE` to the subscriber snapshot
taken at that (post-unsubscribe) point. -/
def remove_member (subs : Nat → Finset Nat) (guild_id member_id : Nat) :
    RMResult :=
  let subs1 := fun g =>
    if g = guild_id then (subs guild_id).erase member_id else subs g
  { guild_delete_to := member_id
    member_remove_to := subs1 guild_id
    subs_after := subs1 }

/-! ## EventDispatcher.dispatch_many_filter_list (façade)

Modelled from the spec: the `EventDispatcher` façade (including
`dispatch_many_filter_list` and `dispatch_user`) is not among the
available sources — only its caller `mass_user_update`
(discord/blueprints/users.py) is.  Per spec section 4.3, the call
iterates the keys of one namespace sequentially; for each key it
snapshots the member set, skips every subscriber already present in
`already_reached`, delivers to the rest and returns the list of ids
reached, the accumulator growing across the keys of the call so that a
subscriber reachable through several keys is delivered to once.  A
member snapshot is a duplicate-free list (the subscription table holds
sets); the table is modelled as `Nat → List Nat`.
-/

def dispatch_many_filter_list (tbl : Nat → List Nat) :
    List Nat → List Nat → List Nat
  | [], _already => []
  | k :: rest, already =>
    ((tbl k).filter fun u => decide (u ∉ already)) ++
      dispatch_many_filter_list tbl rest
        (already ++ (tbl k).filter fun u => decide (u ∉ already))

/-- Embeds the accumulation in `mass_user_update`
(discord/blueprints/users.py): `session_ids` starts as the
`dispatch_user` result, is extended with the guild-key
`dispatch_many_filter_list` result (excluding `session_ids` so far),
then with the friend-key result (excluding the grown accumulator).  The
value is the final accumulated list of reached ids; `user_reached`
stands for the `dispatch_user` result (the façade is modelled from the
spec, see above). -/
def mass_user_update_reached (user_reached : List Nat)
    (guild_tbl friend_tbl : Nat → List Nat)
    (guild_ids friend_ids : List Nat) : List Nat :=
  user_reached ++
    dispatch_many_filter_list guild_tbl guild_ids user_reached ++
    dispatch_many_filter_list friend_tbl friend_ids
      (user_reached ++
        dispatch_many_filter_list guild_tbl guild_ids user_reached)

/-! ## Identify success path (gateway websocket)

Modelled from the spec: the `GatewayWebsocket` class is not among the
available sources — only its caller `websocket_handler` and the test
`test_ready_fields` are.  Per spec section 4.6, on a successful
identify the handler authenticates, builds the initial state snapshot
(current user, guild list, private-channel list), allocates a session
id and emits the snapshot as a dispatch-class frame with event name
`READY`; on authentication failure it closes with code 4004.
-/

inductive Opcode : Type
  | HELLO | IDENTIFY | RESUME | DISPATCH
  | HEARTBEAT | HEARTBEAT_ACK | INVALID_SESSION | RECONNECT
deriving DecidableEq

structure ReadyData where
  user : Nat
  guilds : List Nat
  private_channels : List Nat
  session_id : String
deriving DecidableEq

structure Frame where
  op : Opcode
  t : Option String
  d : ReadyData
deriving DecidableEq

/-- Modelled from the spec: the identify handling of the gateway
websocket (`GatewayWebsocket`, not among the available sources).
`auth` is the external authenticator (token to user id), `user_guilds`
and `user_priv_channels` the storage read projections, and
`new_session_id` the freshly allocated session id for this connection.
Success emits the `READY` dispatch frame; failure closes with 4004. -/
def handle_identify (auth : String → Option Nat)
    (user_guilds : Nat → List Nat) (user_priv_channels : Nat → List Nat)
    (new_session_id : String) (token : String) : Except Nat Frame :=
  match auth token with
  | none => Except.error 4004
  | some uid =>
    Except.ok
      { op := Opcode.DISPATCH
        t := some "READY"
        d := { user := uid
               guilds := user_guilds uid
               private_channels := user_priv_channels uid
               session_id := new_session_id } }

/-- A compress value surfaced by `parse_qs` is never the empty string
(blank values are dropped by `parse_qs`), so the truthiness guard
`if gw_compress and ...` in the source is equivalent to a plain
membership test on the surfaced value. -/
theorem gw_compress_ne_empty (pairs : List (String × String)) (c : String)
    (h : gw_compress pairs = some c) : c ≠ "" := by
  have hc : c ∈ parse_qs pairs "compress" := by
    unfold gw_compress at h
    cases hl : parse_qs pairs "compress" with
    | nil => rw [hl] at h; simp at h
    | cons a t =>
      rw [hl] at h
      simp only [List.head?_cons, Option.some.injEq] at h
      subst h
      exact List.mem_cons_self a t
  intro hEmpty
  subst hEmpty
  unfold parse_qs at hc
  simp only [List.mem_map, List.mem_filter, Bool.and_eq_true] at hc
  obtain ⟨p, ⟨_, hp2⟩, hsnd⟩ := hc
  rw [hsnd] at hp2
  simp at hp2

/-! ## Claim theorems -/

/-- C1: `_dispatch_states` attempts a push to every state in the list,
in order, even when pushes to earlier states raise — the exception is
caught inside the loop and does not propagate — and the returned list
is exactly the session ids of the states whose push succeeded (a failed
push contributes nothing). -/
theorem dispatch_states_isolation (states : List GwState) :
    (dispatch_states states).1 = states.map GwState.session_id ∧
    (dispatch_states states).2 =
      (states.filter GwState.push_ok).map GwState.session_id := by
  induction states with
  | nil => simp [dispatch_states]
  | cons s rest ih =>
    cases hp : s.push_ok <;>
      simp [dispatch_states, GwState.push, hp, ih.1, ih.2]

/-- C4: subscribing the same identifier to the same key twice leaves
the whole backend state — in particular the subscriber set of the key
and its size — identical to the state after a single `sub`, and the
subscriber is in the set (a set holds a user at most once, independent
of its number of live sessions). -/
theorem sub_idempotent (d : DWState) (k s : Nat) :
    ((d.sub k s).sub k s = d.sub k s) ∧
    (((d.sub k s).sub k s).members k).card = ((d.sub k s).members k).card ∧
    s ∈ (d.sub k s).members k := by
  have hstate : (d.sub k s).sub k s = d.sub k s := by
    funext x
    by_cases hx : x = k <;>
      simp [DWState.sub, DWState.get, hx]
  refine ⟨hstate, by rw [hstate], ?_⟩
  simp [DWState.members, DWState.get_sub_self]

/-- C5: after `reset(k)` the membership of `k` is empty while the key
is still present, and a subsequent `sub(k, s)` adds `s` normally; after
`remove(k)` the key is gone, membership reads of `k` return the empty
set rather than an error, and `sub(k, s)` re-creates the key — neither
operation is a poison state. -/
theorem reset_remove_not_poison (d : DWState) (k s : Nat) :
    (d.reset k).members k = ∅ ∧
    (d.reset k) k = some ∅ ∧
    ((d.reset k).sub k s).members k = {s} ∧
    (d.remove k) k = none ∧
    (d.remove k).members k = ∅ ∧
    ((d.remove k).sub k s).members k = {s} ∧
    ((d.remove k).sub k s) k = some {s} := by
  refine ⟨?_, ?_, ?_, ?_, ?_, ?_, ?_⟩ <;>
    simp [DWState.reset, DWState.remove, DWState.sub, DWState.members,
      DWState.get]

/-- C6: `unsub(k, s)` with `s` not subscribed to `k` (in particular
with `k` never subscribed to) raises no error — the model is a total
function — and leaves the membership of every key unchanged; and
`unsub(k, s)` twice is the same state as `unsub(k, s)` once. -/
theorem unsub_absent_and_idempotent (d : DWState) (k s : Nat) :
    (s ∉ d.members k → ∀ x, (d.unsub k s).members x = d.members x) ∧
    (d.unsub k s).unsub k s = d.unsub k s := by
  constructor
  · intro hs x
    by_cases hx : x = k
    · subst hx
      simp [DWState.members, DWState.get_unsub_self]
      exact hs
    · simp [DWState.members, DWState.unsub, DWState.get, hx]
  · funext x
    by_cases hx : x = k <;>
      simp [DWState.unsub, DWState.get, hx, Finset.erase_idem]

/-- C6 witness: on the empty backend state, `1` is not subscribed to
key `0`; `unsub 0 1` leaves the membership of keys `0` and `5`
unchanged, and a second `unsub 0 1` is a no-op. -/
theorem unsub_absent_and_idempotent_witness :
    (DWState.empty.unsub 0 1).members 0 = DWState.empty.members 0 ∧
    (DWState.empty.unsub 0 1).members 5 = DWState.empty.members 5 ∧
    (DWState.empty.unsub 0 1).unsub 0 1 = DWState.empty.unsub 0 1 :=
  ⟨(unsub_absent_and_idempotent DWState.empty 0 1).1 (by decide) 0,
   (unsub_absent_and_idempotent DWState.empty 0 1).1 (by decide) 5,
   (unsub_absent_and_idempotent DWState.empty 0 1).2⟩

/-- C10: for every `v < 2^24`, decomposing `v` into the red, green and
blue byte components and re-encoding them through the `value` property
yields `v` back. -/
theorem color_value_roundtrip (v : Nat) (h : v < 2 ^ 24) :
    (Color.ofVal v).value = v := by
  unfold Color.ofVal Color.value
  simp only
  have h255 : (255 : Nat) = 2 ^ 8 - 1 := by norm_num
  rw [h255, Nat.and_pow_two_sub_one_eq_mod, Nat.and_pow_two_sub_one_eq_mod,
    Nat.and_pow_two_sub_one_eq_mod, Nat.shiftRight_eq_div_pow,
    Nat.shiftRight_eq_div_pow]
  norm_num
  omega

/-- C10 witness: the round trip at the concrete value 0xABCDEF. -/
theorem color_value_roundtrip_witness :
    11259375 < 2 ^ 24 ∧ (Color.ofVal 11259375).value = 11259375 :=
  ⟨by norm_num, color_value_roundtrip 11259375 (by norm_num)⟩

/-- A concrete guild subscription table: guild 0 has subscribers 1 and
2; every other guild key is empty. -/
def ex_guild_subs : Nat → Finset Nat :=
  fun g => if g = 0 then {1, 2} else ∅

/-- C3 counterexample: with users 1 and 2 subscribed to guild 0,
removing member 1 dispatches `GUILD_MEMBER_REMOVE` to a snapshot that
does not contain the removed member — the unsubscribe in
`remove_member` precedes the `dispatch_guild` call, so the snapshot is
the post-removal set, contradicting the claim that the removed member
still receives the deletion event through the guild key. -/
theorem remove_member_post_removal_set :
    1 ∈ ex_guild_subs 0 ∧
    1 ∉ (remove_member ex_guild_subs 0 1).member_remove_to := by
  decide

/-- C3 amended: `remove_member` dispatches `GUILD_MEMBER_REMOVE` to the
post-removal subscriber set (the previous set minus the removed
member), the unsubscribe having been performed before that dispatch;
the removed member is instead notified by the `GUILD_DELETE` dispatched
directly to their guild sessions earlier in the sequence, before the
unsubscribe. -/
theorem remove_member_sequence (subs : Nat → Finset Nat)
    (g m : Nat) :
    (remove_member subs g m).guild_delete_to = m ∧
    (remove_member subs g m).member_remove_to = (subs g).erase m ∧
    m ∉ (remove_member subs g m).member_remove_to ∧
    ∀ x, (remove_member subs g m).subs_after x =
      if x = g then (subs g).erase m else subs x := by
  refine ⟨rfl, by simp [remove_member], ?_, fun x => by simp [remove_member]⟩
  simp [remove_member]

/-- C8: when authentication of the identify token succeeds, the
gateway emits a dispatch-class frame with event name `READY` whose data
carries the authenticated user, the guild list, the private-channel
list and the freshly allocated session id string. -/
theorem identify_emits_ready (auth : String → Option Nat)
    (user_guilds user_priv_channels : Nat → List Nat)
    (new_session_id token : String) (uid : Nat)
    (h : auth token = some uid) :
    handle_identify auth user_guilds user_priv_channels new_session_id
        token =
      Except.ok
        { op := Opcode.DISPATCH
          t := some "READY"
          d := { user := uid
                 guilds := user_guilds uid
                 private_channels := user_priv_channels uid
                 session_id := new_session_id } } := by
  simp [handle_identify, h]

/-- C8 witness: a concrete authenticator accepting the token "tok" as
user 42, with concrete storage projections, yields the `READY` frame. -/
theorem identify_emits_ready_witness :
    handle_identify (fun t => if t = "tok" then some 42 else none)
        (fun _ => [5]) (fun _ => [7]) "sess1" "tok" =
      Except.ok
        { op := Opcode.DISPATCH
          t := some "READY"
          d := { user := 42
                 guilds := [5]
                 private_channels := [7]
                 session_id := "sess1" } } :=
  identify_emits_ready (fun t => if t = "tok" then some 42 else none)
    (fun _ => [5]) (fun _ => [7]) "sess1" "tok" 42 (by simp)

/-- Closed form of `websocket_handler`: the truthiness guard on the
compress value collapses to `bad_compress` because a surfaced compress
value is never empty. -/
theorem websocket_handler_eq (pairs : List (String × String)) :
    websocket_handler pairs =
      if gw_version pairs ∉ (["6", "7"] : List String) then
        HandlerResult.close 1000 "Invalid gateway version"
      else if gw_encoding pairs ∉ (["json", "etf"] : List String) then
        HandlerResult.close 1000 "Invalid gateway encoding"
      else if bad_compress (gw_compress pairs) then
        HandlerResult.close 1000 "Invalid gateway compress"
      else
        HandlerResult.run (gw_version pairs) (gw_encoding pairs)
          (gw_compress pairs) := by
  unfold websocket_handler
  by_cases h1 : gw_version pairs ∉ (["6", "7"] : List String)
  · simp [h1]
  · simp only [if_neg h1]
    by_cases h2 : gw_encoding pairs ∉ (["json", "etf"] : List String)
    · simp [h2]
    · simp only [if_neg h2]
      cases hc : gw_compress pairs with
      | none => simp [bad_compress]
      | some c =>
        have hne : c ≠ "" := gw_compress_ne_empty pairs c hc
        by_cases h3 : c ∈ (["zlib-stream"] : List String)
        · simp [bad_compress, h3, hne]
        · simp [bad_compress, h3, hne]

/-- C7: the handler closes the connection — with code 1000 and a
descriptive reason, before constructing any `GatewayWebsocket` session
state — exactly when the effective protocol version is not one of the
two supported versions, or the effective encoding is not one of the two
supported encodings (json and the binary etf encoding), or a
compression value other than the single supported streaming mode is
requested; for every other connection it constructs and runs a
`GatewayWebsocket` with the negotiated parameters. -/
theorem handler_negotiation (pairs : List (String × String)) :
    ((∃ code reason,
        websocket_handler pairs = HandlerResult.close code reason) ↔
      spec_rejects pairs) ∧
    (∀ code reason,
      websocket_handler pairs = HandlerResult.close code reason →
        code = 1000) ∧
    (¬ spec_rejects pairs →
      websocket_handler pairs =
        HandlerResult.run (gw_version pairs) (gw_encoding pairs)
          (gw_compress pairs)) := by
  rw [websocket_handler_eq]
  unfold spec_rejects
  by_cases h1 : gw_version pairs ∉ (["6", "7"] : List String)
  · rw [if_pos h1]
    refine ⟨⟨fun _ => Or.inl h1, fun _ => ⟨1000, _, rfl⟩⟩, ?_, ?_⟩
    · intro code reason h
      injection h with e1 _
      exact e1.symm
    · intro hn
      exact absurd (Or.inl h1) hn
  · rw [if_neg h1]
    by_cases h2 : gw_encoding pairs ∉ (["json", "etf"] : List String)
    · rw [if_pos h2]
      refine ⟨⟨fun _ => Or.inr (Or.inl h2), fun _ => ⟨1000, _, rfl⟩⟩, ?_, ?_⟩
      · intro code reason h
        injection h with e1 _
        exact e1.symm
      · intro hn
        exact absurd (Or.inr (Or.inl h2)) hn
    · rw [if_neg h2]
      by_cases h3 : bad_compress (gw_compress pairs)
      · rw [if_pos h3]
        refine ⟨⟨fun _ => Or.inr (Or.inr h3), fun _ => ⟨1000, _, rfl⟩⟩,
          ?_, ?_⟩
        · intro code reason h
          injection h with e1 _
          exact e1.symm
        · intro hn
          exact absurd (Or.inr (Or.inr h3)) hn
      · rw [if_neg h3]
        refine ⟨⟨?_, ?_⟩, ?_, fun _ => rfl⟩
        · rintro ⟨code, reason, h⟩
          exact HandlerResult.noConfusion h
        · intro hr
          rcases hr with h | h | h
          · exact absurd h h1
          · exact absurd h h2
          · exact absurd h h3
        · intro code reason h
          exact HandlerResult.noConfusion h

/-- C7 witness: a fully explicit valid negotiation — version "6",
encoding "etf", compress "zlib-stream" — is not rejected and runs a
`GatewayWebsocket` with those parameters. -/
theorem handler_negotiation_witness :
    websocket_handler
        [("v", "6"), ("encoding", "etf"), ("compress", "zlib-stream")] =
      HandlerResult.run "6" "etf" (some "zlib-stream") :=
  (handler_negotiation
    [("v", "6"), ("encoding", "etf"), ("compress", "zlib-stream")]).2.2
    (by decide)

/-- C9: omitting the `v` or `encoding` query parameter (or supplying
it with an empty value, which `parse_qs` drops) does not make the
handler reject the connection for that parameter: the version defaults
to "6", the encoding to "json", the compression to none when `compress`
is absent, and with all three absent the handler runs a
`GatewayWebsocket` with exactly the defaults. -/
theorem handler_defaults (pairs : List (String × String)) :
    (parse_qs pairs "v" = [] → gw_version pairs = "6") ∧
    (parse_qs pairs "encoding" = [] → gw_encoding pairs = "json") ∧
    (parse_qs pairs "compress" = [] → gw_compress pairs = none) ∧
    (parse_qs pairs "v" = [] →
      websocket_handler pairs ≠
        HandlerResult.close 1000 "Invalid gateway version") ∧
    (parse_qs pairs "encoding" = [] →
      websocket_handler pairs ≠
        HandlerResult.close 1000 "Invalid gateway encoding") ∧
    (parse_qs pairs "v" = [] → parse_qs pairs "encoding" = [] →
      parse_qs pairs "compress" = [] →
      websocket_handler pairs = HandlerResult.run "6" "json" none) := by
  have hv : parse_qs pairs "v" = [] → gw_version pairs = "6" := by
    intro h
    unfold gw_version
    rw [h]
    rfl
  have he : parse_qs pairs "encoding" = [] → gw_encoding pairs = "json" := by
    intro h
    unfold gw_encoding
    rw [h]
    rfl
  have hc : parse_qs pairs "compress" = [] → gw_compress pairs = none := by
    intro h
    unfold gw_compress
    rw [h]
    rfl
  refine ⟨hv, he, hc, ?_, ?_, ?_⟩
  · intro h
    rw [websocket_handler_eq, if_neg (by rw [hv h]; decide)]
    split
    · intro hcontra
      injection hcontra with _ e2
      exact absurd e2 (by decide)
    · split
      · intro hcontra
        injection hcontra with _ e2
        exact absurd e2 (by decide)
      · intro hcontra
        exact HandlerResult.noConfusion hcontra
  · intro h
    rw [websocket_handler_eq]
    split
    · intro hcontra
      injection hcontra with _ e2
      exact absurd e2 (by decide)
    · rw [if_neg (by rw [he h]; decide)]
      split
      · intro hcontra
        injection hcontra with _ e2
        exact absurd e2 (by decide)
      · intro hcontra
        exact HandlerResult.noConfusion hcontra
  · intro h1 h2 h3
    rw [websocket_handler_eq, hv h1, he h2, hc h3]
    simp [bad_compress]

/-- C9 witness: a query string carrying only blank `v` and `encoding`
values (dropped by `parse_qs`) runs a `GatewayWebsocket` with the
default version "6", the default encoding "json" and no compression. -/
theorem handler_defaults_witness :
    websocket_handler [("v", ""), ("encoding", "")] =
      HandlerResult.run "6" "json" none :=
  (handler_defaults [("v", ""), ("encoding", "")]).2.2.2.2.2
    (by decide) (by decide) (by decide)

/-- Membership in a `dispatch_many_filter_list` result: an id is
reached exactly when it is not in the exclusion accumulator and is a
member of at least one queried key. -/
theorem dmfl_mem (tbl : Nat → List Nat) (ids : List Nat) :
    ∀ (already : List Nat) (u : Nat),
      u ∈ dispatch_many_filter_list tbl ids already ↔
        u ∉ already ∧ ∃ k ∈ ids, u ∈ tbl k := by
  induction ids with
  | nil =>
    intro already u
    simp [dispatch_many_filter_list]
  | cons k rest ih =>
    intro already u
    rw [dispatch_many_filter_list]
    simp only [List.mem_append, List.mem_filter, decide_eq_true_eq, ih,
      List.mem_cons]
    constructor
    · rintro (⟨hmem, hnot⟩ | ⟨hnot, k2, hk2, hmem⟩)
      · exact ⟨hnot, k, Or.inl rfl, hmem⟩
      · push_neg at hnot
        exact ⟨hnot.1, k2, Or.inr hk2, hmem⟩
    · rintro ⟨hnot, k2, hk2 | hk2, hmem⟩
      · exact Or.inl ⟨hk2 ▸ hmem, hnot⟩
      · by_cases ht : u ∈ tbl k
        · exact Or.inl ⟨ht, hnot⟩
        · refine Or.inr ⟨?_, k2, hk2, hmem⟩
          push_neg
          exact ⟨hnot, fun hb => absurd hb ht⟩

/-- A `dispatch_many_filter_list` result is duplicate-free when the
member snapshots are: the per-call accumulator prevents a second
delivery through a later key. -/
theorem dmfl_nodup (tbl : Nat → List Nat) (ids : List Nat)
    (hnd : ∀ k ∈ ids, (tbl k).Nodup) :
    ∀ already, (dispatch_many_filter_list tbl ids already).Nodup := by
  induction ids with
  | nil =>
    intro already
    simp [dispatch_many_filter_list]
  | cons k rest ih =>
    intro already
    rw [dispatch_many_filter_list]
    apply List.Nodup.append
    · exact (hnd k (List.mem_cons_self k rest)).filter _
    · exact ih (fun k2 hk2 => hnd k2 (List.mem_cons_of_mem k hk2)) _
    · intro u hu1 hu2
      exact ((dmfl_mem tbl rest _ u).mp hu2).1 (List.mem_append_right already hu1)

/-- C2: a multi-key dispatch with an exclusion list skips, for every
queried key, every subscriber already in the accumulator (first
conjunct), reaches an id exactly when it is outside the accumulator and
subscribed to at least one queried key (second conjunct), delivers to
it at most once across the keys of the call (third conjunct), and the
`mass_user_update` threading of the accumulated ids between the
`dispatch_user`, guild-key and friend-key calls keeps the full list of
reached ids duplicate-free — each recipient receives the update exactly
once (fourth conjunct). -/
theorem dispatch_many_filter_once
    (guild_tbl friend_tbl : Nat → List Nat)
    (guild_ids friend_ids already user_reached : List Nat)
    (hg : ∀ k ∈ guild_ids, (guild_tbl k).Nodup)
    (hf : ∀ k ∈ friend_ids, (friend_tbl k).Nodup)
    (hu : user_reached.Nodup) :
    (∀ u ∈ dispatch_many_filter_list guild_tbl guild_ids already,
      u ∉ already) ∧
    (∀ u, u ∈ dispatch_many_filter_list guild_tbl guild_ids already ↔
      u ∉ already ∧ ∃ k ∈ guild_ids, u ∈ guild_tbl k) ∧
    (dispatch_many_filter_list guild_tbl guild_ids already).Nodup ∧
    (mass_user_update_reached user_reached guild_tbl friend_tbl
      guild_ids friend_ids).Nodup := by
  refine ⟨fun u hmem => ((dmfl_mem guild_tbl guild_ids already u).mp hmem).1,
    fun u => dmfl_mem guild_tbl guild_ids already u,
    dmfl_nodup guild_tbl guild_ids hg already, ?_⟩
  unfold mass_user_update_reached
  apply List.Nodup.append
  · apply List.Nodup.append hu (dmfl_nodup guild_tbl guild_ids hg _)
    intro u hu1 hu2
    exact ((dmfl_mem guild_tbl guild_ids _ u).mp hu2).1 hu1
  · exact dmfl_nodup friend_tbl friend_ids hf _
  · intro u hu1 hu2
    exact ((dmfl_mem friend_tbl friend_ids _ u).mp hu2).1 hu1

/-- Guild table for the C2 witness: user 7 subscribed to guilds 10 and
20. -/
def ex_guild_tbl : Nat → List Nat :=
  fun k => if k = 10 ∨ k = 20 then [7] else []

/-- Friend table for the C2 witness: users 7 and 8 subscribed to the
friend key 30. -/
def ex_friend_tbl : Nat → List Nat :=
  fun k => if k = 30 then [7, 8] else []

/-- C2 witness: with user 7 subscribed to both queried guild keys, the
multi-key dispatch reaches 7 (once, the list being duplicate-free), and
the `mass_user_update` accumulation starting from one session already
reached stays duplicate-free. -/
theorem dispatch_many_filter_once_witness :
    (7 ∈ dispatch_many_filter_list ex_guild_tbl [10, 20] [] ↔
      7 ∉ ([] : List Nat) ∧ ∃ k ∈ [10, 20], 7 ∈ ex_guild_tbl k) ∧
    (dispatch_many_filter_list ex_guild_tbl [10, 20] []).Nodup ∧
    (mass_user_update_reached [3] ex_guild_tbl ex_friend_tbl
      [10, 20] [30]).Nodup :=
  ⟨(dispatch_many_filter_once ex_guild_tbl ex_friend_tbl [10, 20] [30]
      [] [3] (by decide) (by decide) (by decide)).2.1 7,
   (dispatch_many_filter_once ex_guild_tbl ex_friend_tbl [10, 20] [30]
      [] [3] (by decide) (by decide) (by decide)).2.2.1,
   (dispatch_many_filter_once ex_guild_tbl ex_friend_tbl [10, 20] [30]
      [] [3] (by decide) (by decide) (by decide)).2.2.2⟩
